import Mathlib

/-!
Verification of the cross-thread render synchronization and texture hand-off
code of tesseract_gui (src/rendering/src/minimal_scene.cpp).

The development shallowly embeds the relevant parts of the source:

* the RenderSync hand-off protocol (RenderStallState, WaitForQtThreadAndBlock,
  ReleaseQtThreadFromBlock, WaitForWorkerThread, Shutdown) is embedded as a
  two-thread interleaving transition system over an explicit configuration
  type.  Every mutation of renderStallState in the source happens with
  RenderSync::mutex held, so an execution is a sequence of atomic guarded
  steps; a condition-variable wait is a step that is enabled exactly when its
  wake predicate holds.  While IgnRenderer::Render runs between
  WaitForQtThreadAndBlock and ReleaseQtThreadFromBlock the worker holds the
  mutex continuously, so steps that need the mutex (RenderSync::Shutdown)
  are disabled in that window.
* IgnRenderer::HandleMouseEvent and the Broadcast helpers are embedded as
  pure functions on the private input state; each broadcast reports the
  dispatch it performed.
* IgnRenderer::Render / RenderThread::RenderNext are embedded over an
  abstract camera (a structure of the camera operations the loop uses).
* TextureNode::PrepareNode, RenderThread::SizeChanged,
  RenderWindowItem::Ready and IgnRenderer::ScreenToScene are embedded
  directly as pure functions.
-/

/-! ## RenderSync: states and configurations -/

/-- Enumeration RenderSync::RenderStallState from the source (the spec calls
these WorkerMayProceed, WorkerIsRunning, ControllerMayProceed, ShuttingDown). -/
inductive RenderStallState where
  | WorkerCanProceed
  | WorkerIsProceeding
  | QtCanProceed
  | ShuttingDown
deriving DecidableEq

/-- Program counter of the worker (render) thread inside its
block-render-release cycle. -/
inductive WorkerPC where
  /-- inside the cv.wait of WaitForQtThreadAndBlock -/
  | wBlocked
  /-- between WaitForQtThreadAndBlock returning and ReleaseQtThreadFromBlock;
  the worker holds the sync mutex for this whole window -/
  | wRendering
  /-- outside a cycle (before entering the next WaitForQtThreadAndBlock) -/
  | wDone
deriving DecidableEq

/-- Program counter of the Qt (controller) thread with respect to
WaitForWorkerThread. -/
inductive CtrlPC where
  /-- not inside WaitForWorkerThread -/
  | cIdle
  /-- inside the first cv.wait of WaitForWorkerThread -/
  | cWait1
  /-- inside the second cv.wait of WaitForWorkerThread -/
  | cWait2
deriving DecidableEq

/-- Progress of a RenderSync::Shutdown call: not called yet, called but still
waiting to acquire the sync mutex, or applied. -/
inductive ShutdownPC where
  | sdNotCalled
  | sdPending
  | sdDone
deriving DecidableEq

/-- A configuration of the two-thread protocol: the shared renderStallState,
both program counters, the shutdown progress, and two event counters used to
state the synchronicity property (completed ReleaseQtThreadFromBlock calls
and completed WaitForWorkerThread returns). -/
structure SyncConfig where
  state : RenderStallState
  wpc : WorkerPC
  cpc : CtrlPC
  sdpc : ShutdownPC
  cycles : Nat
  returns : Nat
deriving DecidableEq

/-- Wake predicate of the cv.wait in WaitForQtThreadAndBlock
(minimal_scene.cpp lines 213-215). -/
def workerWaitPred (s : RenderStallState) : Bool :=
  decide (s = RenderStallState.WorkerCanProceed ∨ s = RenderStallState.ShuttingDown)

/-- Wake predicate of both cv.waits in WaitForWorkerThread
(minimal_scene.cpp lines 234-238 and 249-253). -/
def qtWaitPred (s : RenderStallState) : Bool :=
  decide (s = RenderStallState.QtCanProceed ∨ s = RenderStallState.ShuttingDown)

/-- One atomic step of the RenderSync protocol.  Constructor names follow the
source functions they embed:

* waitForQtThreadAndBlock_enter: the worker begins a cycle (IgnRenderer::Render
  acquires the sync mutex and enters the cv.wait of WaitForQtThreadAndBlock);
* waitForQtThreadAndBlock_wake: the cv.wait predicate holds, the wait returns
  and the function unconditionally sets renderStallState = WorkerIsProceeding
  (lines 211-218); the worker keeps the mutex;
* releaseQtThreadFromBlock: sets renderStallState = QtCanProceed, unlocks and
  notifies (lines 221-226); one render cycle is complete;
* waitForWorkerThread_enter: the Qt thread calls WaitForWorkerThread;
* waitForWorkerThread_wait1: the first cv.wait returns and the function sets
  renderStallState = WorkerCanProceed, unlocks and notifies (lines 234-246);
* waitForWorkerThread_wait2: the second cv.wait returns and the call returns
  (lines 249-253);
* shutdown_enter: the GUI thread calls RenderSync::Shutdown, which first has
  to acquire the sync mutex;
* shutdown_apply: Shutdown acquires the mutex (hence not while the worker is
  in its rendering window) and sets renderStallState = ShuttingDown
  (lines 257-267). -/
inductive SyncStep : SyncConfig → SyncConfig → Prop where
  | waitForQtThreadAndBlock_enter (c : SyncConfig)
      (hw : c.wpc = WorkerPC.wDone) :
      SyncStep c { c with wpc := WorkerPC.wBlocked }
  | waitForQtThreadAndBlock_wake (c : SyncConfig)
      (hw : c.wpc = WorkerPC.wBlocked)
      (hp : workerWaitPred c.state = true) :
      SyncStep c { c with state := RenderStallState.WorkerIsProceeding,
                          wpc := WorkerPC.wRendering }
  | releaseQtThreadFromBlock (c : SyncConfig)
      (hw : c.wpc = WorkerPC.wRendering) :
      SyncStep c { c with state := RenderStallState.QtCanProceed,
                          wpc := WorkerPC.wDone,
                          cycles := c.cycles + 1 }
  | waitForWorkerThread_enter (c : SyncConfig)
      (hc : c.cpc = CtrlPC.cIdle) :
      SyncStep c { c with cpc := CtrlPC.cWait1 }
  | waitForWorkerThread_wait1 (c : SyncConfig)
      (hc : c.cpc = CtrlPC.cWait1)
      (hp : qtWaitPred c.state = true) :
      SyncStep c { c with state := RenderStallState.WorkerCanProceed,
                          cpc := CtrlPC.cWait2 }
  | waitForWorkerThread_wait2 (c : SyncConfig)
      (hc : c.cpc = CtrlPC.cWait2)
      (hp : qtWaitPred c.state = true) :
      SyncStep c { c with cpc := CtrlPC.cIdle, returns := c.returns + 1 }
  | shutdown_enter (c : SyncConfig)
      (hs : c.sdpc = ShutdownPC.sdNotCalled) :
      SyncStep c { c with sdpc := ShutdownPC.sdPending }
  | shutdown_apply (c : SyncConfig)
      (hs : c.sdpc = ShutdownPC.sdPending)
      (hm : c.wpc ≠ WorkerPC.wRendering) :
      SyncStep c { c with state := RenderStallState.ShuttingDown,
                          sdpc := ShutdownPC.sdDone }

/-- Initial configuration: renderStallState starts at QtCanProceed
(minimal_scene.cpp lines 164-165), both threads outside the protocol,
no shutdown requested, no events counted. -/
def syncInit : SyncConfig :=
  { state := RenderStallState.QtCanProceed
    wpc := WorkerPC.wDone
    cpc := CtrlPC.cIdle
    sdpc := ShutdownPC.sdNotCalled
    cycles := 0
    returns := 0 }

/-- A protocol step in a run in which Shutdown is never called (the scenario
of the N-consecutive-hand-offs claim). -/
def SyncStepNS (a b : SyncConfig) : Prop :=
  SyncStep a b ∧ b.sdpc = ShutdownPC.sdNotCalled

/-- Configurations reachable from the initial one without any Shutdown call. -/
def ReachableNS (c : SyncConfig) : Prop :=
  Relation.ReflTransGen SyncStepNS syncInit c

/-- Inductive invariant of the shutdown-free protocol: the four phases of one
hand-off round, each tying the shared state to both program counters and to
the cycle/return counters. -/
def syncInv (c : SyncConfig) : Prop :=
  c.sdpc = ShutdownPC.sdNotCalled ∧
  (((c.cpc = CtrlPC.cIdle ∨ c.cpc = CtrlPC.cWait1) ∧
      c.state = RenderStallState.QtCanProceed ∧
      (c.wpc = WorkerPC.wBlocked ∨ c.wpc = WorkerPC.wDone) ∧
      c.cycles = c.returns) ∨
   (c.cpc = CtrlPC.cWait2 ∧
      c.state = RenderStallState.WorkerCanProceed ∧
      (c.wpc = WorkerPC.wBlocked ∨ c.wpc = WorkerPC.wDone) ∧
      c.cycles = c.returns) ∨
   (c.cpc = CtrlPC.cWait2 ∧
      c.state = RenderStallState.WorkerIsProceeding ∧
      c.wpc = WorkerPC.wRendering ∧
      c.cycles = c.returns) ∨
   (c.cpc = CtrlPC.cWait2 ∧
      c.state = RenderStallState.QtCanProceed ∧
      (c.wpc = WorkerPC.wBlocked ∨ c.wpc = WorkerPC.wDone) ∧
      c.cycles = c.returns + 1))

/-- Both threads are blocked: the worker sits in the cv.wait of
WaitForQtThreadAndBlock with a false wake predicate, and the Qt thread sits
in one of the two cv.waits of WaitForWorkerThread with a false wake
predicate. -/
def BothBlocked (c : SyncConfig) : Prop :=
  (c.wpc = WorkerPC.wBlocked ∧ workerWaitPred c.state = false) ∧
  ((c.cpc = CtrlPC.cWait1 ∨ c.cpc = CtrlPC.cWait2) ∧ qtWaitPred c.state = false)

/-! Concrete configurations for the shutdown scenarios (C2, C3).

The first family follows a run in which the worker is blocked inside
WaitForQtThreadAndBlock when Shutdown is applied. -/

/-- Worker entered WaitForQtThreadAndBlock and is blocked (wake predicate is
false at QtCanProceed). -/
def blockedCfg : SyncConfig :=
  { state := RenderStallState.QtCanProceed, wpc := WorkerPC.wBlocked,
    cpc := CtrlPC.cIdle, sdpc := ShutdownPC.sdNotCalled, cycles := 0, returns := 0 }

/-- Shutdown has been called on the GUI side while the worker is blocked. -/
def blockedCallCfg : SyncConfig :=
  { blockedCfg with sdpc := ShutdownPC.sdPending }

/-- Shutdown acquired the mutex and set ShuttingDown; the worker is still
inside the cv.wait of WaitForQtThreadAndBlock. -/
def blockedShutdownCfg : SyncConfig :=
  { state := RenderStallState.ShuttingDown, wpc := WorkerPC.wBlocked,
    cpc := CtrlPC.cIdle, sdpc := ShutdownPC.sdDone, cycles := 0, returns := 0 }

/-- The worker woke from the cv.wait: WaitForQtThreadAndBlock set the state to
WorkerIsProceeding and returned, so the caller (IgnRenderer::Render) runs the
render cycle. -/
def blockedWakeCfg : SyncConfig :=
  { state := RenderStallState.WorkerIsProceeding, wpc := WorkerPC.wRendering,
    cpc := CtrlPC.cIdle, sdpc := ShutdownPC.sdDone, cycles := 0, returns := 0 }

/-! The second family follows a run in which Shutdown is called while the
worker is mid-cycle (state WorkerIsProceeding). -/

/-- Worker is mid-cycle: state WorkerIsProceeding, worker between block and
release, one controller call in its second wait. -/
def midRunCfg : SyncConfig :=
  { state := RenderStallState.WorkerIsProceeding, wpc := WorkerPC.wRendering,
    cpc := CtrlPC.cWait2, sdpc := ShutdownPC.sdNotCalled, cycles := 0, returns := 0 }

/-- Shutdown has been called while the worker is mid-cycle; the call is
pending on the sync mutex, which the worker holds. -/
def midCalledCfg : SyncConfig :=
  { midRunCfg with sdpc := ShutdownPC.sdPending }

/-- The interrupted cycle finished normally: ReleaseQtThreadFromBlock set
QtCanProceed and completed the cycle; the shutdown call is still pending. -/
def midReleasedCfg : SyncConfig :=
  { state := RenderStallState.QtCanProceed, wpc := WorkerPC.wDone,
    cpc := CtrlPC.cWait2, sdpc := ShutdownPC.sdPending, cycles := 1, returns := 0 }

/-- The pending Shutdown now acquired the mutex and set ShuttingDown. -/
def midShutdownCfg : SyncConfig :=
  { midReleasedCfg with state := RenderStallState.ShuttingDown,
                        sdpc := ShutdownPC.sdDone }

/-- The worker entered its next WaitForQtThreadAndBlock call. -/
def midBlockedCfg : SyncConfig :=
  { midShutdownCfg with wpc := WorkerPC.wBlocked }

/-- The next block call returned at once (it observed ShuttingDown), set the
state to WorkerIsProceeding, and the worker proceeds with another render
cycle. -/
def midProceedingCfg : SyncConfig :=
  { state := RenderStallState.WorkerIsProceeding, wpc := WorkerPC.wRendering,
    cpc := CtrlPC.cWait2, sdpc := ShutdownPC.sdDone, cycles := 1, returns := 0 }

/-! ## IgnRenderer input state and event dispatch

Embeds IgnRenderer::Implementation's input fields and the Broadcast helper
functions called from IgnRenderer::HandleMouseEvent (minimal_scene.cpp lines
331-524).  Each broadcast returns the updated state together with the list of
dispatches it performed (empty or a singleton); sending the actual Qt events
to the application is external and is represented only by the dispatch
record. -/

/-- ignition::common::MouseEvent button identifiers (the ones the source
compares against). -/
inductive MouseButton where
  | NO_BUTTON
  | LEFT
  | MIDDLE
  | RIGHT
deriving DecidableEq

/-- ignition::common::MouseEvent event types. -/
inductive MouseEventType where
  | NO_EVENT
  | MOVE
  | PRESS
  | RELEASE
  | SCROLL
deriving DecidableEq

/-- ignition::common::KeyEvent event types. -/
inductive KeyEventType where
  | NO_EVENT
  | PRESS
  | RELEASE
deriving DecidableEq

/-- The fields of ignition::common::MouseEvent the dispatch logic reads. -/
structure MouseEvent where
  button : MouseButton
  typ : MouseEventType
  dragging : Bool
  pos : Int × Int
deriving DecidableEq

/-- The field of ignition::common::KeyEvent the dispatch logic reads. -/
structure KeyEvent where
  typ : KeyEventType
deriving DecidableEq

/-- The input-related fields of IgnRenderer::Implementation (lines 60-97),
all read and written under dataPtr->mutex. -/
structure InputState where
  mouseDirty : Bool
  hoverDirty : Bool
  dropDirty : Bool
  mouseEvent : MouseEvent
  keyEvent : KeyEvent
  mouseHoverPos : Int × Int
  mouseDropPos : Int × Int
  dropText : String
deriving DecidableEq

/-- The nine input categories HandleMouseEvent can dispatch. -/
inductive DispatchCat where
  | hover
  | drag
  | mousePress
  | leftClick
  | rightClick
  | scroll
  | keyPress
  | keyRelease
  | drop
deriving DecidableEq

/-- IgnRenderer::BroadcastHoverPos (lines 383-403): gated by hoverDirty,
clears hoverDirty after dispatching. -/
def broadcastHoverPos (s : InputState) : InputState × List DispatchCat :=
  if s.hoverDirty = false then (s, [])
  else ({ s with hoverDirty := false }, [DispatchCat.hover])

/-- IgnRenderer::BroadcastDrag (lines 406-420): gated by mouseDirty and the
dragging flag of the last mouse event; clears mouseDirty after dispatching. -/
def broadcastDrag (s : InputState) : InputState × List DispatchCat :=
  if s.mouseDirty = false ∨ s.mouseEvent.dragging = false then (s, [])
  else ({ s with mouseDirty := false }, [DispatchCat.drag])

/-- IgnRenderer::BroadcastMousePress (lines 469-482): gated by mouseDirty and
the last event type being PRESS; clears mouseDirty after dispatching. -/
def broadcastMousePress (s : InputState) : InputState × List DispatchCat :=
  if s.mouseDirty = false ∨ s.mouseEvent.typ ≠ MouseEventType.PRESS then (s, [])
  else ({ s with mouseDirty := false }, [DispatchCat.mousePress])

/-- IgnRenderer::BroadcastLeftClick (lines 423-443): gated by mouseDirty and
the exact pair (button = LEFT, type = RELEASE); clears mouseDirty after
dispatching. -/
def broadcastLeftClick (s : InputState) : InputState × List DispatchCat :=
  if s.mouseDirty = false ∨ s.mouseEvent.button ≠ MouseButton.LEFT ∨
      s.mouseEvent.typ ≠ MouseEventType.RELEASE then (s, [])
  else ({ s with mouseDirty := false }, [DispatchCat.leftClick])

/-- IgnRenderer::BroadcastRightClick (lines 446-466): gated by mouseDirty and
the exact pair (button = RIGHT, type = RELEASE); clears mouseDirty after
dispatching. -/
def broadcastRightClick (s : InputState) : InputState × List DispatchCat :=
  if s.mouseDirty = false ∨ s.mouseEvent.button ≠ MouseButton.RIGHT ∨
      s.mouseEvent.typ ≠ MouseEventType.RELEASE then (s, [])
  else ({ s with mouseDirty := false }, [DispatchCat.rightClick])

/-- IgnRenderer::BroadcastScroll (lines 485-498): gated by mouseDirty and the
last event type being SCROLL; clears mouseDirty after dispatching. -/
def broadcastScroll (s : InputState) : InputState × List DispatchCat :=
  if s.mouseDirty = false ∨ s.mouseEvent.typ ≠ MouseEventType.SCROLL then (s, [])
  else ({ s with mouseDirty := false }, [DispatchCat.scroll])

/-- IgnRenderer::BroadcastKeyPress (lines 514-524): gated by the stored key
event type being PRESS; resets the key event type to the NO_EVENT sentinel
after dispatching. -/
def broadcastKeyPress (s : InputState) : InputState × List DispatchCat :=
  if s.keyEvent.typ ≠ KeyEventType.PRESS then (s, [])
  else ({ s with keyEvent := { s.keyEvent with typ := KeyEventType.NO_EVENT } },
        [DispatchCat.keyPress])

/-- IgnRenderer::BroadcastKeyRelease (lines 501-511): gated by the stored key
event type being RELEASE; resets the key event type to the NO_EVENT sentinel
after dispatching. -/
def broadcastKeyRelease (s : InputState) : InputState × List DispatchCat :=
  if s.keyEvent.typ ≠ KeyEventType.RELEASE then (s, [])
  else ({ s with keyEvent := { s.keyEvent with typ := KeyEventType.NO_EVENT } },
        [DispatchCat.keyRelease])

/-- IgnRenderer::BroadcastDrop (lines 371-380): gated by dropDirty, clears
dropDirty after dispatching. -/
def broadcastDrop (s : InputState) : InputState × List DispatchCat :=
  if s.dropDirty = false then (s, [])
  else ({ s with dropDirty := false }, [DispatchCat.drop])

/-- IgnRenderer::HandleMouseEvent (lines 331-344): under the input mutex,
runs the nine broadcasts in source order and finally sets mouseDirty = false
unconditionally. -/
def handleMouseEvent (s0 : InputState) : InputState × List DispatchCat :=
  let r1 := broadcastHoverPos s0
  let r2 := broadcastDrag r1.1
  let r3 := broadcastMousePress r2.1
  let r4 := broadcastLeftClick r3.1
  let r5 := broadcastRightClick r4.1
  let r6 := broadcastScroll r5.1
  let r7 := broadcastKeyPress r6.1
  let r8 := broadcastKeyRelease r7.1
  let r9 := broadcastDrop r8.1
  ({ r9.1 with mouseDirty := false },
   r1.2 ++ r2.2 ++ r3.2 ++ r4.2 ++ r5.2 ++ r6.2 ++ r7.2 ++ r8.2 ++ r9.2)

/-- The five dispatch categories that are gated by the shared mouseDirty
flag. -/
def isMouseCat : DispatchCat → Bool
  | DispatchCat.drag => true
  | DispatchCat.mousePress => true
  | DispatchCat.leftClick => true
  | DispatchCat.rightClick => true
  | DispatchCat.scroll => true
  | _ => false

/-- The nine categories in the order HandleMouseEvent dispatches them. -/
def fullDispatchList : List DispatchCat :=
  [DispatchCat.hover, DispatchCat.drag, DispatchCat.mousePress,
   DispatchCat.leftClick, DispatchCat.rightClick, DispatchCat.scroll,
   DispatchCat.keyPress, DispatchCat.keyRelease, DispatchCat.drop]

/-- A concrete input state used to instantiate the dispatch theorems: a
pending left-button release (a left click), a pending hover, a pending drop
and a pending key press. -/
def inputSample : InputState :=
  { mouseDirty := true
    hoverDirty := true
    dropDirty := true
    mouseEvent :=
      { button := MouseButton.LEFT, typ := MouseEventType.RELEASE,
        dragging := false, pos := (10, 20) }
    keyEvent := { typ := KeyEventType.PRESS }
    mouseHoverPos := (10, 20)
    mouseDropPos := (0, 0)
    dropText := "model" }

/-! ## Render loop, resize, screen-to-scene and texture node -/

/-- QSize: integer pixel dimensions. -/
structure QSizeM where
  width : Int
  height : Int
deriving DecidableEq

/-- The operations of ignition::rendering::Camera used by the render loop,
over an abstract camera representation.  setAspect stands for the source's
SetAspectRatio. -/
structure CameraOps (Cam : Type) where
  setImageWidth : Cam → Int → Cam
  setImageHeight : Cam → Int → Cam
  setAspect : Cam → Int → Cam
  preRender : Cam → Cam
  renderTextureGLId : Cam → Nat
  update : Cam → Cam

/-- The IgnRenderer fields the render loop uses (textureId, textureSize,
textureDirty, initialized) together with the input state of its private
Implementation. -/
structure IgnRendererState where
  textureId : Nat
  textureSize : QSizeM
  textureDirty : Bool
  initialized : Bool
  input : InputState
deriving DecidableEq

/-- The resize block of IgnRenderer::Render (lines 281-301): when
textureDirty is set, push the pending texture size into the camera, set the
aspect value (the source divides the two ints of the QSize) and call
PreRender, which rebuilds the render texture. -/
def resizeCamera {Cam : Type} (ops : CameraOps Cam) (r : IgnRendererState)
    (cam : Cam) : Cam :=
  if r.textureDirty = true then
    ops.preRender (ops.setAspect
      (ops.setImageHeight (ops.setImageWidth cam r.textureSize.width)
        r.textureSize.height)
      (r.textureSize.width / r.textureSize.height))
  else cam

/-- IgnRenderer::Render (lines 276-328) without the RenderSync calls, which
are modelled by the protocol above: resize if dirty (clearing textureDirty),
read the GL id of the current render target into textureId, apply pending
input (HandleMouseEvent), then advance and render one frame (camera Update).
The PreRender/Render GUI events sent to the application are external. -/
def IgnRenderer.render {Cam : Type} (ops : CameraOps Cam)
    (r : IgnRendererState) (cam : Cam) : IgnRendererState × Cam :=
  let cam1 := resizeCamera ops r cam
  let r1 := if r.textureDirty = true then { r with textureDirty := false } else r
  let r2 := { r1 with textureId := ops.renderTextureGLId cam1 }
  let r3 := { r2 with input := (handleMouseEvent r2.input).1 }
  let cam2 := ops.update cam1
  (r3, cam2)

/-- RenderThread::RenderNext (lines 708-728): when the renderer is not
initialized the frame is skipped and nothing is published (initialization is
external engine work); otherwise render one frame and emit TextureReady with
the renderer's textureId and textureSize. -/
def RenderThread.renderNext {Cam : Type} (ops : CameraOps Cam)
    (r : IgnRendererState) (cam : Cam) :
    (IgnRendererState × Cam) × Option (Nat × QSizeM) :=
  if r.initialized = false then ((r, cam), none)
  else
    let rc := IgnRenderer.render ops r cam
    (rc, some (rc.1.textureId, rc.1.textureSize))

/-- RenderThread::SizeChanged (lines 749-763): the sender item's qreal
width/height (modelled as rationals) are discarded when either is not
positive; otherwise they are truncated into the int-valued QSize stored in
textureSize, and textureDirty is set.  The guard makes both dimensions
strictly positive in the else branch, so the C++ double-to-int truncation
toward zero is Int.floor there.  Note the guard does not prevent a height
strictly between 0 and 1, whose truncation stores height 0. -/
def RenderThread.sizeChanged (r : IgnRendererState)
    (itemWidth itemHeight : ℚ) : IgnRendererState :=
  if itemWidth ≤ 0 ∨ itemHeight ≤ 0 then r
  else { r with textureSize := { width := Int.floor itemWidth,
                                 height := Int.floor itemHeight },
                textureDirty := true }

/-- RenderWindowItem::Ready (lines 895-896): the initial texture size clamps
both qreal dimensions to a minimum of 1.0 before the QSize truncation; the
clamped values are at least 1, so the toward-zero truncation is Int.floor. -/
def RenderWindowItem.readySize (w h : ℚ) : QSizeM :=
  { width := Int.floor (max w 1), height := Int.floor (max h 1) }

/-- Modelled from the spec words "must reject height <= 0 by clamping to a
minimum of 1" (spec 4.2 step 2) read as a clamping resize: a size-change
request is always applied, with the height raised to at least 1 before the
QSize truncation.  Defined only to compare the specified behavior with
RenderThread.sizeChanged. -/
def sizeChangedSpec (r : IgnRendererState)
    (itemWidth itemHeight : ℚ) : IgnRendererState :=
  { r with textureSize := { width := Int.floor itemWidth,
                            height := Int.floor (max itemHeight 1) },
           textureDirty := true }

/-- A 3d vector with rational coordinates (the source uses doubles; the
normalization and fallback arithmetic is exact). -/
structure Vec3 where
  x : ℚ
  y : ℚ
  z : ℚ
deriving DecidableEq

/-- Componentwise vector addition. -/
def Vec3.add (a b : Vec3) : Vec3 :=
  { x := a.x + b.x, y := a.y + b.y, z := a.z + b.z }

/-- Scalar multiple of a vector. -/
def Vec3.scale (k : ℚ) (a : Vec3) : Vec3 :=
  { x := k * a.x, y := k * a.y, z := k * a.z }

/-- Result of configuring the ray query from the camera at given normalized
coordinates (SetFromCamera): the query's origin and direction, and the
ClosestPoint result (an intersection point, or none). -/
structure RayQueryResult where
  origin : Vec3
  direction : Vec3
  hit : Option Vec3

/-- IgnRenderer::ScreenToScene (lines 672-698): normalize the screen
position with nx = 2x/width - 1 and ny = 1 - 2y/height, issue the ray query
from the camera at (nx, ny), return the intersection point when the query
reports one, otherwise the point 10 units along the ray
(Origin() + Direction() * 10). -/
def IgnRenderer.screenToScene (imageWidth imageHeight : ℚ)
    (rayQueryFromCamera : ℚ × ℚ → RayQueryResult)
    (screenPos : Int × Int) : Vec3 :=
  let nx : ℚ := 2 * (screenPos.1 : ℚ) / imageWidth - 1
  let ny : ℚ := 1 - 2 * (screenPos.2 : ℚ) / imageHeight
  let q := rayQueryFromCamera (nx, ny)
  match q.hit with
  | some p => p
  | none => Vec3.add q.origin (Vec3.scale 10 q.direction)

/-- A Qt scene-graph texture wrapper created from a GL id and a size. -/
structure SGTexture where
  glId : Nat
  size : QSizeM
deriving DecidableEq

/-- TextureNode state: the published (id, size) pair written by NewTexture
under the node mutex, and the currently displayed texture wrapper. -/
structure TextureNodeState where
  id : Nat
  size : QSizeM
  texture : SGTexture
deriving DecidableEq

/-- The externally visible actions of TextureNode::PrepareNode, in order. -/
inductive PrepareEvent where
  | destroyTexture (t : SGTexture)
  | createTexture (glId : Nat) (size : QSizeM)
  | markDirtyMaterial
  | emitTextureInUse
  | waitForWorkerThread
deriving DecidableEq

/-- TextureNode::NewTexture (lines 788-798): publish the id and size under
the node mutex. -/
def TextureNode.newTexture (n : TextureNodeState) (id0 : Nat) (sz : QSizeM) :
    TextureNodeState :=
  { n with id := id0, size := sz }

/-- TextureNode::PrepareNode (lines 801-861): atomically take-and-clear the
published id (and read the size) under the node mutex; when the taken id is
nonzero, delete the old texture wrapper, create a new one from the taken id
and size and mark the node dirty (DirtyMaterial); in both cases emit
TextureInUse and call WaitForWorkerThread before returning. -/
def TextureNode.prepareNode (n : TextureNodeState) :
    TextureNodeState × List PrepareEvent :=
  let newId := n.id
  let sz := n.size
  let n1 : TextureNodeState := { n with id := 0 }
  if newId ≠ 0 then
    ({ n1 with texture := { glId := newId, size := sz } },
     [PrepareEvent.destroyTexture n.texture,
      PrepareEvent.createTexture newId sz,
      PrepareEvent.markDirtyMaterial,
      PrepareEvent.emitTextureInUse,
      PrepareEvent.waitForWorkerThread])
  else
    (n1, [PrepareEvent.emitTextureInUse, PrepareEvent.waitForWorkerThread])

/-- Sample camera operations over Cam := Nat: the render-target GL id is the
camera value itself and Update bumps it, so the pre-update and post-update
reads differ. -/
def camOpsSample : CameraOps Nat :=
  { setImageWidth := fun c _ => c
    setImageHeight := fun c _ => c
    setAspect := fun c _ => c
    preRender := fun c => c
    renderTextureGLId := fun c => c
    update := fun c => c + 1 }

/-- A concrete renderer state with an 800 x 600 render target. -/
def rendererSample : IgnRendererState :=
  { textureId := 7
    textureSize := { width := 800, height := 600 }
    textureDirty := false
    initialized := true
    input := inputSample }

/-- A concrete ray query that reports no intersection, with fixed origin and
direction. -/
def rayQuerySample : ℚ × ℚ → RayQueryResult :=
  fun _ =>
    { origin := { x := 1, y := 2, z := 3 }
      direction := { x := 0, y := 0, z := 1 }
      hit := none }

/-- The node state of the spec scenario: published id 7 at 800 x 600, the
displayed wrapper still the dummy id 0 texture. -/
def nodeSample : TextureNodeState :=
  { id := 7
    size := { width := 800, height := 600 }
    texture := { glId := 0, size := { width := 1, height := 1 } } }

theorem reachableNS_syncInv (c : SyncConfig) (h : ReachableNS c) : syncInv c := by
  induction h with
  | refl => simp [syncInv, syncInit]
  | tail _ hbc ih =>
    obtain ⟨hstep, hsd⟩ := hbc
    cases hstep with
    | waitForQtThreadAndBlock_enter hw =>
      rcases ih with ⟨hsd0, h1 | h2 | h3 | h4⟩ <;>
        simp_all [syncInv]
    | waitForQtThreadAndBlock_wake hw hp =>
      rcases ih with ⟨hsd0, h1 | h2 | h3 | h4⟩ <;>
        simp_all [syncInv, workerWaitPred]
    | releaseQtThreadFromBlock hw =>
      rcases ih with ⟨hsd0, h1 | h2 | h3 | h4⟩ <;>
        simp_all [syncInv]
    | waitForWorkerThread_enter hc =>
      rcases ih with ⟨hsd0, h1 | h2 | h3 | h4⟩ <;>
        simp_all [syncInv]
    | waitForWorkerThread_wait1 hc hp =>
      rcases ih with ⟨hsd0, h1 | h2 | h3 | h4⟩ <;>
        simp_all [syncInv, qtWaitPred]
    | waitForWorkerThread_wait2 hc hp =>
      rcases ih with ⟨hsd0, h1 | h2 | h3 | h4⟩ <;>
        simp_all [syncInv, qtWaitPred]
    | shutdown_enter hs =>
      simp_all
    | shutdown_apply hs hm =>
      obtain ⟨hsd0, _⟩ := ih
      simp_all

/-- C1: for every run of the protocol in which the Qt thread repeatedly calls
WaitForWorkerThread (the controller hand-off) and the worker loops through
WaitForQtThreadAndBlock then ReleaseQtThreadFromBlock, starting from the
initial state QtCanProceed and with no Shutdown call, no reachable
configuration has both threads blocked, and whenever the controller call is
about to return (second cv.wait predicate true at cWait2) exactly one more
worker block-render-release cycle has completed than controller calls have
returned, so each controller call returns only after exactly one complete
worker cycle. -/
theorem waitForWorkerThread_no_deadlock_one_cycle (c : SyncConfig)
    (h : ReachableNS c) :
    ¬ BothBlocked c ∧
    (c.cpc = CtrlPC.cWait2 → qtWaitPred c.state = true →
      c.cycles = c.returns + 1) := by
  have hI := reachableNS_syncInv c h
  rcases hI with ⟨hsd, h1 | h2 | h3 | h4⟩
  · constructor
    · rintro ⟨⟨_, _⟩, ⟨_, hq⟩⟩
      simp [h1.2.1, qtWaitPred] at hq
    · intro hc
      rcases h1.1 with h | h <;> simp_all
  · constructor
    · rintro ⟨⟨hwb, hwp⟩, _⟩
      simp [h2.2.1, workerWaitPred] at hwp
    · intro _ hq
      simp [h2.2.1, qtWaitPred] at hq
  · constructor
    · rintro ⟨⟨hwb, _⟩, _⟩
      simp [h3.2.2.1] at hwb
    · intro _ hq
      simp [h3.2.1, qtWaitPred] at hq
  · constructor
    · rintro ⟨_, ⟨_, hq⟩⟩
      simp [h4.2.1, qtWaitPred] at hq
    · intro _ _
      exact h4.2.2.2

/-- Witness for C1 at the initial configuration, which is trivially reachable. -/
theorem waitForWorkerThread_no_deadlock_one_cycle_witness :
    ¬ BothBlocked syncInit ∧
    (syncInit.cpc = CtrlPC.cWait2 → qtWaitPred syncInit.state = true →
      syncInit.cycles = syncInit.returns + 1) :=
  waitForWorkerThread_no_deadlock_one_cycle syncInit Relation.ReflTransGen.refl

/-- C2 (counterexample): in the run syncInit -> blockedCfg -> blockedCallCfg
-> blockedShutdownCfg, Shutdown sets ShuttingDown while the worker is blocked
inside WaitForQtThreadAndBlock (its wake predicate was false at blockedCfg);
the very next worker step nevertheless sets the state to WorkerIsProceeding
(the spec name for it is WorkerIsRunning) and moves the worker into its
rendering window, contradicting the claim that the state never becomes
WorkerIsRunning and that the call returns without rendering. -/
theorem shutdown_while_blocked_counterexample :
    Relation.ReflTransGen SyncStep syncInit blockedShutdownCfg ∧
    workerWaitPred blockedCfg.state = false ∧
    blockedShutdownCfg.state = RenderStallState.ShuttingDown ∧
    blockedShutdownCfg.wpc = WorkerPC.wBlocked ∧
    SyncStep blockedShutdownCfg blockedWakeCfg ∧
    blockedWakeCfg.state = RenderStallState.WorkerIsProceeding ∧
    blockedWakeCfg.wpc = WorkerPC.wRendering := by
  refine ⟨?_, rfl, rfl, rfl, ?_, rfl, rfl⟩
  · have s1 : SyncStep syncInit blockedCfg :=
      SyncStep.waitForQtThreadAndBlock_enter syncInit rfl
    have s2 : SyncStep blockedCfg blockedCallCfg :=
      SyncStep.shutdown_enter blockedCfg rfl
    have s3 : SyncStep blockedCallCfg blockedShutdownCfg :=
      SyncStep.shutdown_apply blockedCallCfg rfl (by decide)
    exact ((Relation.ReflTransGen.refl.tail s1).tail s2).tail s3
  · exact SyncStep.waitForQtThreadAndBlock_wake blockedShutdownCfg rfl rfl

/-- C2 (amended): if Shutdown has set the state to ShuttingDown while the
worker is blocked inside WaitForQtThreadAndBlock, the blocked call wakes at
once (its wake predicate is true at ShuttingDown), but it still sets the
state to WorkerIsProceeding and returns normally, and the caller performs a
full render-and-release cycle; the shutdown does not suppress the render. -/
theorem shutdown_wakes_worker_but_render_proceeds
    (cp : CtrlPC) (sd : ShutdownPC) (cy rt : Nat) :
    workerWaitPred RenderStallState.ShuttingDown = true ∧
    SyncStep
      { state := RenderStallState.ShuttingDown, wpc := WorkerPC.wBlocked,
        cpc := cp, sdpc := sd, cycles := cy, returns := rt }
      { state := RenderStallState.WorkerIsProceeding, wpc := WorkerPC.wRendering,
        cpc := cp, sdpc := sd, cycles := cy, returns := rt } ∧
    SyncStep
      { state := RenderStallState.WorkerIsProceeding, wpc := WorkerPC.wRendering,
        cpc := cp, sdpc := sd, cycles := cy, returns := rt }
      { state := RenderStallState.QtCanProceed, wpc := WorkerPC.wDone,
        cpc := cp, sdpc := sd, cycles := cy + 1, returns := rt } := by
  refine ⟨rfl, ?_, ?_⟩
  · exact SyncStep.waitForQtThreadAndBlock_wake _ rfl rfl
  · exact SyncStep.releaseQtThreadFromBlock _ rfl

/-- C3 (counterexample): in the run syncInit ->* midRunCfg -> midCalledCfg
(Shutdown is called while the state is WorkerIsProceeding) -> midReleasedCfg
(the cycle finishes and ReleaseQtThreadFromBlock sets QtCanProceed) ->
midShutdownCfg (the pending shutdown applies) -> midBlockedCfg ->
midProceedingCfg, the worker's next WaitForQtThreadAndBlock call observes
ShuttingDown but does not exit the protocol: it sets WorkerIsProceeding and
enters another rendering window, contradicting the claim that the next block
call exits without proceeding. -/
theorem shutdown_mid_cycle_counterexample :
    Relation.ReflTransGen SyncStep syncInit midProceedingCfg ∧
    midRunCfg.state = RenderStallState.WorkerIsProceeding ∧
    SyncStep midRunCfg midCalledCfg ∧
    SyncStep midCalledCfg midReleasedCfg ∧
    midReleasedCfg.state = RenderStallState.QtCanProceed ∧
    SyncStep midBlockedCfg midProceedingCfg ∧
    midProceedingCfg.state = RenderStallState.WorkerIsProceeding ∧
    midProceedingCfg.wpc = WorkerPC.wRendering := by
  have s1 : SyncStep syncInit
      { state := RenderStallState.QtCanProceed, wpc := WorkerPC.wDone,
        cpc := CtrlPC.cWait1, sdpc := ShutdownPC.sdNotCalled,
        cycles := 0, returns := 0 } :=
    SyncStep.waitForWorkerThread_enter syncInit rfl
  have s2 : SyncStep
      { state := RenderStallState.QtCanProceed, wpc := WorkerPC.wDone,
        cpc := CtrlPC.cWait1, sdpc := ShutdownPC.sdNotCalled,
        cycles := 0, returns := 0 }
      { state := RenderStallState.WorkerCanProceed, wpc := WorkerPC.wDone,
        cpc := CtrlPC.cWait2, sdpc := ShutdownPC.sdNotCalled,
        cycles := 0, returns := 0 } :=
    SyncStep.waitForWorkerThread_wait1 _ rfl rfl
  have s3 : SyncStep
      { state := RenderStallState.WorkerCanProceed, wpc := WorkerPC.wDone,
        cpc := CtrlPC.cWait2, sdpc := ShutdownPC.sdNotCalled,
        cycles := 0, returns := 0 }
      { state := RenderStallState.WorkerCanProceed, wpc := WorkerPC.wBlocked,
        cpc := CtrlPC.cWait2, sdpc := ShutdownPC.sdNotCalled,
        cycles := 0, returns := 0 } :=
    SyncStep.waitForQtThreadAndBlock_enter _ rfl
  have s4 : SyncStep
      { state := RenderStallState.WorkerCanProceed, wpc := WorkerPC.wBlocked,
        cpc := CtrlPC.cWait2, sdpc := ShutdownPC.sdNotCalled,
        cycles := 0, returns := 0 } midRunCfg :=
    SyncStep.waitForQtThreadAndBlock_wake _ rfl rfl
  have s5 : SyncStep midRunCfg midCalledCfg :=
    SyncStep.shutdown_enter midRunCfg rfl
  have s6 : SyncStep midCalledCfg midReleasedCfg :=
    SyncStep.releaseQtThreadFromBlock midCalledCfg rfl
  have s7 : SyncStep midReleasedCfg midShutdownCfg :=
    SyncStep.shutdown_apply midReleasedCfg rfl (by decide)
  have s8 : SyncStep midShutdownCfg midBlockedCfg :=
    SyncStep.waitForQtThreadAndBlock_enter midShutdownCfg rfl
  have s9 : SyncStep midBlockedCfg midProceedingCfg :=
    SyncStep.waitForQtThreadAndBlock_wake midBlockedCfg rfl rfl
  refine ⟨?_, rfl, s5, s6, rfl, s9, rfl, rfl⟩
  exact ((((((((Relation.ReflTransGen.refl.tail s1).tail s2).tail
    s3).tail s4).tail s5).tail s6).tail s7).tail s8).tail s9

/-- C3 (amended): a Shutdown call made while the worker is mid-cycle cannot
update the state before the cycle ends, because the worker holds the sync
mutex: no step from the mid-cycle configuration with a pending shutdown
produces ShuttingDown.  The cycle finishes normally and
ReleaseQtThreadFromBlock still sets QtCanProceed; the pending Shutdown then
applies; the worker's next WaitForQtThreadAndBlock call wakes without
blocking (its predicate is true at ShuttingDown), but it sets
WorkerIsProceeding and proceeds into another render cycle rather than
exiting. -/
theorem shutdown_mid_cycle_deferred_then_render_repeats
    (cp : CtrlPC) (cy rt : Nat) :
    (∀ c2, SyncStep
        { state := RenderStallState.WorkerIsProceeding, wpc := WorkerPC.wRendering,
          cpc := cp, sdpc := ShutdownPC.sdPending, cycles := cy, returns := rt } c2 →
        c2.state ≠ RenderStallState.ShuttingDown) ∧
    SyncStep
      { state := RenderStallState.WorkerIsProceeding, wpc := WorkerPC.wRendering,
        cpc := cp, sdpc := ShutdownPC.sdPending, cycles := cy, returns := rt }
      { state := RenderStallState.QtCanProceed, wpc := WorkerPC.wDone,
        cpc := cp, sdpc := ShutdownPC.sdPending, cycles := cy + 1, returns := rt } ∧
    SyncStep
      { state := RenderStallState.QtCanProceed, wpc := WorkerPC.wDone,
        cpc := cp, sdpc := ShutdownPC.sdPending, cycles := cy + 1, returns := rt }
      { state := RenderStallState.ShuttingDown, wpc := WorkerPC.wDone,
        cpc := cp, sdpc := ShutdownPC.sdDone, cycles := cy + 1, returns := rt } ∧
    SyncStep
      { state := RenderStallState.ShuttingDown, wpc := WorkerPC.wDone,
        cpc := cp, sdpc := ShutdownPC.sdDone, cycles := cy + 1, returns := rt }
      { state := RenderStallState.ShuttingDown, wpc := WorkerPC.wBlocked,
        cpc := cp, sdpc := ShutdownPC.sdDone, cycles := cy + 1, returns := rt } ∧
    workerWaitPred RenderStallState.ShuttingDown = true ∧
    SyncStep
      { state := RenderStallState.ShuttingDown, wpc := WorkerPC.wBlocked,
        cpc := cp, sdpc := ShutdownPC.sdDone, cycles := cy + 1, returns := rt }
      { state := RenderStallState.WorkerIsProceeding, wpc := WorkerPC.wRendering,
        cpc := cp, sdpc := ShutdownPC.sdDone, cycles := cy + 1, returns := rt } := by
  refine ⟨?_, ?_, ?_, ?_, rfl, ?_⟩
  · intro c2 hstep
    cases hstep <;> simp_all [workerWaitPred, qtWaitPred]
  · exact SyncStep.releaseQtThreadFromBlock _ rfl
  · exact SyncStep.shutdown_apply _ rfl (by simp)
  · exact SyncStep.waitForQtThreadAndBlock_enter _ rfl
  · exact SyncStep.waitForQtThreadAndBlock_wake _ rfl rfl

/-- Witness for the amended C3 theorem: at the concrete mid-cycle
configuration midCalledCfg the release step is permitted, and its target's
state (QtCanProceed) indeed differs from ShuttingDown, as the first conjunct
demands of every successor. -/
theorem shutdown_mid_cycle_deferred_then_render_repeats_witness :
    midReleasedCfg.state ≠ RenderStallState.ShuttingDown ∧
    SyncStep midCalledCfg midReleasedCfg :=
  ⟨(shutdown_mid_cycle_deferred_then_render_repeats CtrlPC.cWait2 0 0).1
      midReleasedCfg
      (shutdown_mid_cycle_deferred_then_render_repeats CtrlPC.cWait2 0 0).2.1,
    (shutdown_mid_cycle_deferred_then_render_repeats CtrlPC.cWait2 0 0).2.1⟩

/-! ## Input dispatch theorems -/

theorem broadcastHoverPos_dispatch_sub (s : InputState) :
    (broadcastHoverPos s).2.Sublist [DispatchCat.hover] := by
  unfold broadcastHoverPos
  split
  · exact List.nil_sublist _
  · exact List.Sublist.refl _

theorem broadcastDrag_dispatch_sub (s : InputState) :
    (broadcastDrag s).2.Sublist [DispatchCat.drag] := by
  unfold broadcastDrag
  split
  · exact List.nil_sublist _
  · exact List.Sublist.refl _

theorem broadcastMousePress_dispatch_sub (s : InputState) :
    (broadcastMousePress s).2.Sublist [DispatchCat.mousePress] := by
  unfold broadcastMousePress
  split
  · exact List.nil_sublist _
  · exact List.Sublist.refl _

theorem broadcastLeftClick_dispatch_sub (s : InputState) :
    (broadcastLeftClick s).2.Sublist [DispatchCat.leftClick] := by
  unfold broadcastLeftClick
  split
  · exact List.nil_sublist _
  · exact List.Sublist.refl _

theorem broadcastRightClick_dispatch_sub (s : InputState) :
    (broadcastRightClick s).2.Sublist [DispatchCat.rightClick] := by
  unfold broadcastRightClick
  split
  · exact List.nil_sublist _
  · exact List.Sublist.refl _

theorem broadcastScroll_dispatch_sub (s : InputState) :
    (broadcastScroll s).2.Sublist [DispatchCat.scroll] := by
  unfold broadcastScroll
  split
  · exact List.nil_sublist _
  · exact List.Sublist.refl _

theorem broadcastKeyPress_dispatch_sub (s : InputState) :
    (broadcastKeyPress s).2.Sublist [DispatchCat.keyPress] := by
  unfold broadcastKeyPress
  split
  · exact List.nil_sublist _
  · exact List.Sublist.refl _

theorem broadcastKeyRelease_dispatch_sub (s : InputState) :
    (broadcastKeyRelease s).2.Sublist [DispatchCat.keyRelease] := by
  unfold broadcastKeyRelease
  split
  · exact List.nil_sublist _
  · exact List.Sublist.refl _

theorem broadcastDrop_dispatch_sub (s : InputState) :
    (broadcastDrop s).2.Sublist [DispatchCat.drop] := by
  unfold broadcastDrop
  split
  · exact List.nil_sublist _
  · exact List.Sublist.refl _

/-- The dispatches of one HandleMouseEvent call form a sublist of the nine
categories in dispatch order; in particular no category repeats. -/
theorem handleMouseEvent_dispatch_sub (s : InputState) :
    (handleMouseEvent s).2.Sublist fullDispatchList := by
  simp only [handleMouseEvent]
  exact ((((((((broadcastHoverPos_dispatch_sub _).append
    (broadcastDrag_dispatch_sub _)).append
    (broadcastMousePress_dispatch_sub _)).append
    (broadcastLeftClick_dispatch_sub _)).append
    (broadcastRightClick_dispatch_sub _)).append
    (broadcastScroll_dispatch_sub _)).append
    (broadcastKeyPress_dispatch_sub _)).append
    (broadcastKeyRelease_dispatch_sub _)).append
    (broadcastDrop_dispatch_sub _)

/-- C6: in each HandleMouseEvent call every input category is dispatched at
most once; and for each Broadcast helper, a dispatch happens only when its
governing gate held on entry (hoverDirty, mouseDirty plus the event-shape
tests, the key-event type, dropDirty) and the dispatch path clears that gate
(mouseDirty cleared, hoverDirty cleared, dropDirty cleared, key-event type
reset to NO_EVENT). -/
theorem handleMouseEvent_dispatch_gated_once (s : InputState) :
    (∀ cat, (handleMouseEvent s).2.count cat ≤ 1) ∧
    ((broadcastHoverPos s).2 ≠ [] →
      s.hoverDirty = true ∧ (broadcastHoverPos s).1.hoverDirty = false) ∧
    ((broadcastDrag s).2 ≠ [] →
      (s.mouseDirty = true ∧ s.mouseEvent.dragging = true) ∧
      (broadcastDrag s).1.mouseDirty = false) ∧
    ((broadcastMousePress s).2 ≠ [] →
      (s.mouseDirty = true ∧ s.mouseEvent.typ = MouseEventType.PRESS) ∧
      (broadcastMousePress s).1.mouseDirty = false) ∧
    ((broadcastLeftClick s).2 ≠ [] →
      (s.mouseDirty = true ∧ s.mouseEvent.button = MouseButton.LEFT ∧
        s.mouseEvent.typ = MouseEventType.RELEASE) ∧
      (broadcastLeftClick s).1.mouseDirty = false) ∧
    ((broadcastRightClick s).2 ≠ [] →
      (s.mouseDirty = true ∧ s.mouseEvent.button = MouseButton.RIGHT ∧
        s.mouseEvent.typ = MouseEventType.RELEASE) ∧
      (broadcastRightClick s).1.mouseDirty = false) ∧
    ((broadcastScroll s).2 ≠ [] →
      (s.mouseDirty = true ∧ s.mouseEvent.typ = MouseEventType.SCROLL) ∧
      (broadcastScroll s).1.mouseDirty = false) ∧
    ((broadcastKeyPress s).2 ≠ [] →
      s.keyEvent.typ = KeyEventType.PRESS ∧
      (broadcastKeyPress s).1.keyEvent.typ = KeyEventType.NO_EVENT) ∧
    ((broadcastKeyRelease s).2 ≠ [] →
      s.keyEvent.typ = KeyEventType.RELEASE ∧
      (broadcastKeyRelease s).1.keyEvent.typ = KeyEventType.NO_EVENT) ∧
    ((broadcastDrop s).2 ≠ [] →
      s.dropDirty = true ∧ (broadcastDrop s).1.dropDirty = false) := by
  refine ⟨?_, ?_, ?_, ?_, ?_, ?_, ?_, ?_, ?_, ?_⟩
  · intro cat
    have hsub := (handleMouseEvent_dispatch_sub s).count_le cat
    have hfull : fullDispatchList.count cat ≤ 1 := by
      cases cat <;> decide
    omega
  · unfold broadcastHoverPos
    split <;> simp_all
  · unfold broadcastDrag
    split <;> simp_all
  · unfold broadcastMousePress
    split <;> simp_all
  · unfold broadcastLeftClick
    split <;> simp_all
  · unfold broadcastRightClick
    split <;> simp_all
  · unfold broadcastScroll
    split <;> simp_all
  · unfold broadcastKeyPress
    split <;> simp_all
  · unfold broadcastKeyRelease
    split <;> simp_all
  · unfold broadcastDrop
    split <;> simp_all

/-- Witness for C6 at the concrete pending-left-click input state: the hover,
left-click, key-press and drop gates held and are cleared by their dispatch
paths, and the leftClick category is dispatched at most once. -/
theorem handleMouseEvent_dispatch_gated_once_witness :
    (handleMouseEvent inputSample).2.count DispatchCat.leftClick ≤ 1 ∧
    (inputSample.hoverDirty = true ∧
      (broadcastHoverPos inputSample).1.hoverDirty = false) ∧
    ((inputSample.mouseDirty = true ∧
        inputSample.mouseEvent.button = MouseButton.LEFT ∧
        inputSample.mouseEvent.typ = MouseEventType.RELEASE) ∧
      (broadcastLeftClick inputSample).1.mouseDirty = false) ∧
    (inputSample.keyEvent.typ = KeyEventType.PRESS ∧
      (broadcastKeyPress inputSample).1.keyEvent.typ = KeyEventType.NO_EVENT) ∧
    (inputSample.dropDirty = true ∧
      (broadcastDrop inputSample).1.dropDirty = false) :=
  ⟨(handleMouseEvent_dispatch_gated_once inputSample).1 DispatchCat.leftClick,
   (handleMouseEvent_dispatch_gated_once inputSample).2.1 (by decide),
   (handleMouseEvent_dispatch_gated_once inputSample).2.2.2.2.1 (by decide),
   (handleMouseEvent_dispatch_gated_once inputSample).2.2.2.2.2.2.2.1 (by decide),
   (handleMouseEvent_dispatch_gated_once inputSample).2.2.2.2.2.2.2.2.2 (by decide)⟩

/-! Preservation lemmas: the broadcasts that are not key dispatches leave the
stored key event untouched. -/

theorem broadcastHoverPos_fst_keyEvent (t : InputState) :
    (broadcastHoverPos t).1.keyEvent = t.keyEvent := by
  unfold broadcastHoverPos
  split <;> rfl

theorem broadcastDrag_fst_keyEvent (t : InputState) :
    (broadcastDrag t).1.keyEvent = t.keyEvent := by
  unfold broadcastDrag
  split <;> rfl

theorem broadcastMousePress_fst_keyEvent (t : InputState) :
    (broadcastMousePress t).1.keyEvent = t.keyEvent := by
  unfold broadcastMousePress
  split <;> rfl

theorem broadcastLeftClick_fst_keyEvent (t : InputState) :
    (broadcastLeftClick t).1.keyEvent = t.keyEvent := by
  unfold broadcastLeftClick
  split <;> rfl

theorem broadcastRightClick_fst_keyEvent (t : InputState) :
    (broadcastRightClick t).1.keyEvent = t.keyEvent := by
  unfold broadcastRightClick
  split <;> rfl

theorem broadcastScroll_fst_keyEvent (t : InputState) :
    (broadcastScroll t).1.keyEvent = t.keyEvent := by
  unfold broadcastScroll
  split <;> rfl

theorem broadcastDrop_fst_keyEvent (t : InputState) :
    (broadcastDrop t).1.keyEvent = t.keyEvent := by
  unfold broadcastDrop
  split <;> rfl

/-- After BroadcastKeyPress followed by BroadcastKeyRelease the stored
key-event type is always the NO_EVENT sentinel: whichever of the two gates
held, the dispatch path reset the type, and if neither held it was NO_EVENT
already. -/
theorem keyPress_keyRelease_neutral (t : InputState) :
    (broadcastKeyRelease (broadcastKeyPress t).1).1.keyEvent.typ =
      KeyEventType.NO_EVENT := by
  cases h : t.keyEvent.typ <;>
    simp [broadcastKeyPress, broadcastKeyRelease, h]

/-- A skipped key-press broadcast returns the state unchanged with no
dispatch. -/
theorem broadcastKeyPress_skip (t : InputState)
    (h : t.keyEvent.typ ≠ KeyEventType.PRESS) :
    broadcastKeyPress t = (t, []) := by
  unfold broadcastKeyPress
  simp [h]

/-- A skipped key-release broadcast returns the state unchanged with no
dispatch. -/
theorem broadcastKeyRelease_skip (t : InputState)
    (h : t.keyEvent.typ ≠ KeyEventType.RELEASE) :
    broadcastKeyRelease t = (t, []) := by
  unfold broadcastKeyRelease
  simp [h]

/-- After any HandleMouseEvent call the stored key-event type is NO_EVENT. -/
theorem handleMouseEvent_keyEvent_neutral (s : InputState) :
    (handleMouseEvent s).1.keyEvent.typ = KeyEventType.NO_EVENT := by
  simp only [handleMouseEvent]
  simp [broadcastDrop_fst_keyEvent, keyPress_keyRelease_neutral]

/-- Dispatch lists of the non-key broadcasts never contain a key category. -/
theorem broadcastHoverPos_count_key (t : InputState) (cat : DispatchCat)
    (h1 : cat ≠ DispatchCat.hover) :
    (broadcastHoverPos t).2.count cat = 0 := by
  unfold broadcastHoverPos
  split <;> simp [List.count_cons, h1]

theorem broadcastDrag_count_key (t : InputState) (cat : DispatchCat)
    (h1 : cat ≠ DispatchCat.drag) :
    (broadcastDrag t).2.count cat = 0 := by
  unfold broadcastDrag
  split <;> simp [List.count_cons, h1]

theorem broadcastMousePress_count_key (t : InputState) (cat : DispatchCat)
    (h1 : cat ≠ DispatchCat.mousePress) :
    (broadcastMousePress t).2.count cat = 0 := by
  unfold broadcastMousePress
  split <;> simp [List.count_cons, h1]

theorem broadcastLeftClick_count_key (t : InputState) (cat : DispatchCat)
    (h1 : cat ≠ DispatchCat.leftClick) :
    (broadcastLeftClick t).2.count cat = 0 := by
  unfold broadcastLeftClick
  split <;> simp [List.count_cons, h1]

theorem broadcastRightClick_count_key (t : InputState) (cat : DispatchCat)
    (h1 : cat ≠ DispatchCat.rightClick) :
    (broadcastRightClick t).2.count cat = 0 := by
  unfold broadcastRightClick
  split <;> simp [List.count_cons, h1]

theorem broadcastScroll_count_key (t : InputState) (cat : DispatchCat)
    (h1 : cat ≠ DispatchCat.scroll) :
    (broadcastScroll t).2.count cat = 0 := by
  unfold broadcastScroll
  split <;> simp [List.count_cons, h1]

theorem broadcastDrop_count_key (t : InputState) (cat : DispatchCat)
    (h1 : cat ≠ DispatchCat.drop) :
    (broadcastDrop t).2.count cat = 0 := by
  unfold broadcastDrop
  split <;> simp [List.count_cons, h1]

/-- A HandleMouseEvent call on a state whose stored key-event type is the
NO_EVENT sentinel dispatches neither key category. -/
theorem handleMouseEvent_no_key_dispatch (t : InputState)
    (h : t.keyEvent.typ = KeyEventType.NO_EVENT) :
    (handleMouseEvent t).2.count DispatchCat.keyPress = 0 ∧
    (handleMouseEvent t).2.count DispatchCat.keyRelease = 0 := by
  have h6 : (broadcastScroll (broadcastRightClick (broadcastLeftClick
      (broadcastMousePress (broadcastDrag
        (broadcastHoverPos t).1).1).1).1).1).1.keyEvent.typ =
      KeyEventType.NO_EVENT := by
    rw [broadcastScroll_fst_keyEvent, broadcastRightClick_fst_keyEvent,
      broadcastLeftClick_fst_keyEvent, broadcastMousePress_fst_keyEvent,
      broadcastDrag_fst_keyEvent, broadcastHoverPos_fst_keyEvent, h]
  have hkp := broadcastKeyPress_skip _ (by rw [h6]; intro hc; cases hc)
  have hkr := broadcastKeyRelease_skip _ (by rw [h6]; intro hc; cases hc)
  constructor <;>
  · simp only [handleMouseEvent, List.count_append, hkp]
    rw [hkr]
    simp [broadcastHoverPos_count_key, broadcastDrag_count_key,
      broadcastMousePress_count_key, broadcastLeftClick_count_key,
      broadcastRightClick_count_key, broadcastScroll_count_key,
      broadcastDrop_count_key]

/-- C9: after any HandleMouseEvent call the stored key-event type is the
NO_EVENT sentinel, and a second call on the resulting state (no new key event
in between) dispatches neither keyPress nor keyRelease: key dispatch is
edge-triggered, not redelivered on the next frame. -/
theorem key_dispatch_edge_triggered (s : InputState) :
    (handleMouseEvent s).1.keyEvent.typ = KeyEventType.NO_EVENT ∧
    (handleMouseEvent (handleMouseEvent s).1).2.count DispatchCat.keyPress = 0 ∧
    (handleMouseEvent (handleMouseEvent s).1).2.count DispatchCat.keyRelease = 0 :=
  ⟨handleMouseEvent_keyEvent_neutral s,
   (handleMouseEvent_no_key_dispatch _ (handleMouseEvent_keyEvent_neutral s)).1,
   (handleMouseEvent_no_key_dispatch _ (handleMouseEvent_keyEvent_neutral s)).2⟩

/-! Mouse-exclusivity: each mouseDirty-gated broadcast spends the single
mouseDirty token when it dispatches, so the five paths fire at most once in
total. -/

theorem broadcastHoverPos_countP_mouse (t : InputState) :
    (broadcastHoverPos t).2.countP isMouseCat = 0 := by
  unfold broadcastHoverPos
  split <;> rfl

theorem broadcastKeyPress_countP_mouse (t : InputState) :
    (broadcastKeyPress t).2.countP isMouseCat = 0 := by
  unfold broadcastKeyPress
  split <;> rfl

theorem broadcastKeyRelease_countP_mouse (t : InputState) :
    (broadcastKeyRelease t).2.countP isMouseCat = 0 := by
  unfold broadcastKeyRelease
  split <;> rfl

theorem broadcastDrop_countP_mouse (t : InputState) :
    (broadcastDrop t).2.countP isMouseCat = 0 := by
  unfold broadcastDrop
  split <;> rfl

theorem broadcastDrag_countP_token (t : InputState) :
    (broadcastDrag t).2.countP isMouseCat +
      (if (broadcastDrag t).1.mouseDirty = true then 1 else 0) ≤
      (if t.mouseDirty = true then 1 else 0) := by
  unfold broadcastDrag
  split <;> simp_all [isMouseCat]

theorem broadcastMousePress_countP_token (t : InputState) :
    (broadcastMousePress t).2.countP isMouseCat +
      (if (broadcastMousePress t).1.mouseDirty = true then 1 else 0) ≤
      (if t.mouseDirty = true then 1 else 0) := by
  unfold broadcastMousePress
  split <;> simp_all [isMouseCat]

theorem broadcastLeftClick_countP_token (t : InputState) :
    (broadcastLeftClick t).2.countP isMouseCat +
      (if (broadcastLeftClick t).1.mouseDirty = true then 1 else 0) ≤
      (if t.mouseDirty = true then 1 else 0) := by
  unfold broadcastLeftClick
  split <;> simp_all [isMouseCat]

theorem broadcastRightClick_countP_token (t : InputState) :
    (broadcastRightClick t).2.countP isMouseCat +
      (if (broadcastRightClick t).1.mouseDirty = true then 1 else 0) ≤
      (if t.mouseDirty = true then 1 else 0) := by
  unfold broadcastRightClick
  split <;> simp_all [isMouseCat]

theorem broadcastScroll_countP_token (t : InputState) :
    (broadcastScroll t).2.countP isMouseCat +
      (if (broadcastScroll t).1.mouseDirty = true then 1 else 0) ≤
      (if t.mouseDirty = true then 1 else 0) := by
  unfold broadcastScroll
  split <;> simp_all [isMouseCat]

/-- C10: in each HandleMouseEvent call at most one of the five
mouseDirty-gated dispatch paths (drag, generic press, left click, right
click, scroll) fires, and when the call returns mouseDirty is false
unconditionally, so an unmatched pending mouse event is discarded rather
than delivered on a later frame. -/
theorem mouse_dispatch_exclusive_and_discarded (s : InputState) :
    (handleMouseEvent s).2.countP isMouseCat ≤ 1 ∧
    (handleMouseEvent s).1.mouseDirty = false := by
  constructor
  · simp only [handleMouseEvent, List.countP_append]
    rw [broadcastHoverPos_countP_mouse, broadcastKeyPress_countP_mouse,
      broadcastKeyRelease_countP_mouse, broadcastDrop_countP_mouse]
    have h2 := broadcastDrag_countP_token (broadcastHoverPos s).1
    have h3 := broadcastMousePress_countP_token
      (broadcastDrag (broadcastHoverPos s).1).1
    have h4 := broadcastLeftClick_countP_token
      (broadcastMousePress (broadcastDrag (broadcastHoverPos s).1).1).1
    have h5 := broadcastRightClick_countP_token
      (broadcastLeftClick (broadcastMousePress (broadcastDrag
        (broadcastHoverPos s).1).1).1).1
    have h6 := broadcastScroll_countP_token
      (broadcastRightClick (broadcastLeftClick (broadcastMousePress
        (broadcastDrag (broadcastHoverPos s).1).1).1).1).1
    have h1 : (if (broadcastHoverPos s).1.mouseDirty = true then 1 else 0) ≤ 1 := by
      split <;> omega
    omega
  · rfl

/-! ## PrepareNode, RenderNext, resize and ScreenToScene theorems -/

/-- C4: PrepareNode takes and clears the published texture id (the stored id
is 0 afterwards); when the taken id is nonzero it destroys the old wrapper,
builds a new wrapper from the taken id and size and marks the node dirty;
when the taken id is 0 it leaves the displayed wrapper untouched; and in
both cases the last action before returning is the controller hand-off
WaitForWorkerThread. -/
theorem prepareNode_spec (n : TextureNodeState) :
    (TextureNode.prepareNode n).1.id = 0 ∧
    (n.id ≠ 0 →
      (TextureNode.prepareNode n).1.texture = { glId := n.id, size := n.size } ∧
      (TextureNode.prepareNode n).2 =
        [PrepareEvent.destroyTexture n.texture,
         PrepareEvent.createTexture n.id n.size,
         PrepareEvent.markDirtyMaterial,
         PrepareEvent.emitTextureInUse,
         PrepareEvent.waitForWorkerThread]) ∧
    (n.id = 0 →
      (TextureNode.prepareNode n).1.texture = n.texture ∧
      (TextureNode.prepareNode n).2 =
        [PrepareEvent.emitTextureInUse, PrepareEvent.waitForWorkerThread]) ∧
    (TextureNode.prepareNode n).2.getLast? =
      some PrepareEvent.waitForWorkerThread := by
  by_cases h : n.id = 0 <;>
    simp [TextureNode.prepareNode, h]

/-- Witness for C4 on the spec scenario: Prepare consumes the published id 7
texture, the follow-up Prepare (published id 0) leaves the id 7 wrapper
untouched and still performs the hand-off. -/
theorem prepareNode_spec_witness :
    (TextureNode.prepareNode nodeSample).1.id = 0 ∧
    (TextureNode.prepareNode nodeSample).1.texture =
      { glId := 7, size := { width := 800, height := 600 } } ∧
    (TextureNode.prepareNode (TextureNode.prepareNode nodeSample).1).1.texture =
      { glId := 7, size := { width := 800, height := 600 } } ∧
    (TextureNode.prepareNode (TextureNode.prepareNode nodeSample).1).2 =
      [PrepareEvent.emitTextureInUse, PrepareEvent.waitForWorkerThread] := by
  refine ⟨(prepareNode_spec nodeSample).1, ?_, ?_, ?_⟩
  · exact ((prepareNode_spec nodeSample).2.1 (by decide)).1
  · have h2 := (prepareNode_spec (TextureNode.prepareNode nodeSample).1).2.2.1
      (prepareNode_spec nodeSample).1
    rw [h2.1]
    exact ((prepareNode_spec nodeSample).2.1 (by decide)).1
  · exact ((prepareNode_spec (TextureNode.prepareNode nodeSample).1).2.2.1
      (prepareNode_spec nodeSample).1).2

/-- C5: for every initialized render cycle, the TextureReady publication of
RenderNext carries the GL id read from the render target after the resize
step but before the camera Update, together with the current texture size:
the most recently completed frame's texture, for every choice of camera
operations, including those whose Update changes the render-target id. -/
theorem renderNext_publishes_pre_update_id {Cam : Type} (ops : CameraOps Cam)
    (r : IgnRendererState) (cam : Cam) (hinit : r.initialized = true) :
    (RenderThread.renderNext ops r cam).2 =
      some (ops.renderTextureGLId (resizeCamera ops r cam), r.textureSize) := by
  simp [RenderThread.renderNext, IgnRenderer.render, hinit]
  split <;> rfl

/-- Witness for C5 with the sample camera whose Update changes the GL id:
the published id is the pre-update read (7), not the post-update one (8). -/
theorem renderNext_publishes_pre_update_id_witness :
    (RenderThread.renderNext camOpsSample rendererSample 7).2 =
      some (camOpsSample.renderTextureGLId
        (resizeCamera camOpsSample rendererSample 7), rendererSample.textureSize) ∧
    camOpsSample.renderTextureGLId
      (camOpsSample.update (resizeCamera camOpsSample rendererSample 7)) ≠
      camOpsSample.renderTextureGLId (resizeCamera camOpsSample rendererSample 7) :=
  ⟨renderNext_publishes_pre_update_id camOpsSample rendererSample 7 rfl, by decide⟩

/-- C7 (counterexample): the claim fails in both its parts.  A size change
to 500 x 0 is rejected by dropping the request, not by clamping: SizeChanged
leaves the renderer state (and its 800 x 600 texture size) unchanged,
whereas the clamping semantics in the spec words would store 500 x 1.  And
the division is not protected either: a size change to 500 x 0.5 passes the
non-positive guard, truncation stores height 0 with textureDirty set, so the
divisor textureSize.height of the next resize block (resizeCamera) is 0. -/
theorem sizeChanged_no_clamp_counterexample :
    RenderThread.sizeChanged rendererSample 500 0 = rendererSample ∧
    (RenderThread.sizeChanged rendererSample 500 0).textureSize =
      { width := 800, height := 600 } ∧
    (sizeChangedSpec rendererSample 500 0).textureSize =
      { width := 500, height := 1 } ∧
    RenderThread.sizeChanged rendererSample 500 0 ≠
      sizeChangedSpec rendererSample 500 0 ∧
    (RenderThread.sizeChanged rendererSample 500 (1 / 2)).textureSize.height = 0 ∧
    (RenderThread.sizeChanged rendererSample 500 (1 / 2)).textureDirty = true := by
  have h0 : RenderThread.sizeChanged rendererSample 500 0 = rendererSample := by
    unfold RenderThread.sizeChanged
    rw [if_pos (Or.inr le_rfl)]
  have hspec : (sizeChangedSpec rendererSample 500 0).textureSize =
      { width := 500, height := 1 } := by
    have hmax : max (0 : ℚ) 1 = 1 := max_eq_right (by norm_num)
    unfold sizeChangedSpec
    simp [hmax, QSizeM.mk.injEq]
  have hhole : RenderThread.sizeChanged rendererSample 500 (1 / 2) =
      { rendererSample with
          textureSize := { width := 500, height := 0 }, textureDirty := true } := by
    unfold RenderThread.sizeChanged
    rw [if_neg (by norm_num)]
    simp [QSizeM.mk.injEq]
    norm_num
  refine ⟨h0, by rw [h0]; rfl, hspec, ?_, by rw [hhole], by rw [hhole]⟩
  intro hEq
  rw [h0] at hEq
  have hts := congrArg IgnRendererState.textureSize hEq
  rw [hspec] at hts
  exact absurd hts (by decide)

/-- C7 (amended): SizeChanged discards a size change whose qreal height (or
width) is at most 0, without clamping; the initial size set by Ready clamps
both dimensions to a minimum of 1; SizeChanged never stores a negative
height; and a size change whose height is at least 1 stores a truncated
height of at least 1.  (The counterexample shows the guard does not protect
the aspect-ratio divisor from a request with height strictly between 0 and
1, which stores height 0.) -/
theorem resize_height_never_negative (r : IgnRendererState)
    (w h wi hi : ℚ) :
    (h ≤ 0 → RenderThread.sizeChanged r w h = r) ∧
    1 ≤ (RenderWindowItem.readySize wi hi).width ∧
    1 ≤ (RenderWindowItem.readySize wi hi).height ∧
    (0 ≤ r.textureSize.height →
      0 ≤ (RenderThread.sizeChanged r w h).textureSize.height) ∧
    (1 ≤ r.textureSize.height → 1 ≤ h →
      1 ≤ (RenderThread.sizeChanged r w h).textureSize.height) := by
  refine ⟨?_, ?_, ?_, ?_, ?_⟩
  · intro hh
    unfold RenderThread.sizeChanged
    rw [if_pos (Or.inr hh)]
  · show 1 ≤ Int.floor (max wi 1)
    rw [Int.le_floor]
    push_cast
    exact le_max_right wi 1
  · show 1 ≤ Int.floor (max hi 1)
    rw [Int.le_floor]
    push_cast
    exact le_max_right hi 1
  · intro hr
    unfold RenderThread.sizeChanged
    split
    · exact hr
    · rename_i hcond
      push_neg at hcond
      show (0 : Int) ≤ Int.floor h
      rw [Int.le_floor]
      push_cast
      linarith [hcond.2]
  · intro hr hh1
    unfold RenderThread.sizeChanged
    split
    · exact hr
    · show (1 : Int) ≤ Int.floor h
      rw [Int.le_floor]
      push_cast
      exact hh1

/-- Witness for the amended C7: the 500 x 0 request is dropped, the clamped
initial size has height at least 1, the 500 x 0.5 request keeps the stored
height nonnegative, and a 640 x 480 request keeps it at least 1. -/
theorem resize_height_never_negative_witness :
    RenderThread.sizeChanged rendererSample 500 0 = rendererSample ∧
    1 ≤ (RenderWindowItem.readySize (-5) 0).height ∧
    0 ≤ (RenderThread.sizeChanged rendererSample 500 (1 / 2)).textureSize.height ∧
    1 ≤ (RenderThread.sizeChanged rendererSample 640 480).textureSize.height :=
  ⟨(resize_height_never_negative rendererSample 500 0 (-5) 0).1 (by norm_num),
   (resize_height_never_negative rendererSample 500 0 (-5) 0).2.2.1,
   (resize_height_never_negative rendererSample 500 (1 / 2) (-5) 0).2.2.2.1
     (by decide),
   (resize_height_never_negative rendererSample 640 480 (-5) 0).2.2.2.2
     (by decide) (by norm_num)⟩

/-- C8: ScreenToScene maps a screen position inside the image to normalized
coordinates in [-1,1] x [-1,1] with the y axis inverted (nx = 2x/w - 1,
ny = 1 - 2y/h), issues the ray query at those coordinates, returns the
reported intersection point when there is one, and otherwise returns the
ray origin plus 10 times the ray direction. -/
theorem screenToScene_spec (w h : ℚ) (rq : ℚ × ℚ → RayQueryResult)
    (x y : Int) (hw : 0 < w) (hh : 0 < h)
    (hx0 : 0 ≤ (x : ℚ)) (hxw : (x : ℚ) ≤ w)
    (hy0 : 0 ≤ (y : ℚ)) (hyh : (y : ℚ) ≤ h) :
    (-1 ≤ 2 * (x : ℚ) / w - 1 ∧ 2 * (x : ℚ) / w - 1 ≤ 1 ∧
      -1 ≤ 1 - 2 * (y : ℚ) / h ∧ 1 - 2 * (y : ℚ) / h ≤ 1) ∧
    (∀ p, (rq (2 * (x : ℚ) / w - 1, 1 - 2 * (y : ℚ) / h)).hit = some p →
      IgnRenderer.screenToScene w h rq (x, y) = p) ∧
    ((rq (2 * (x : ℚ) / w - 1, 1 - 2 * (y : ℚ) / h)).hit = none →
      IgnRenderer.screenToScene w h rq (x, y) =
        Vec3.add (rq (2 * (x : ℚ) / w - 1, 1 - 2 * (y : ℚ) / h)).origin
          (Vec3.scale 10
            (rq (2 * (x : ℚ) / w - 1, 1 - 2 * (y : ℚ) / h)).direction)) := by
  refine ⟨⟨?_, ?_, ?_, ?_⟩, ?_, ?_⟩
  · have hnn : 0 ≤ 2 * (x : ℚ) / w := div_nonneg (by linarith) (le_of_lt hw)
    linarith
  · have hle : 2 * (x : ℚ) / w ≤ 2 := by
      rw [div_le_iff₀ hw]
      linarith
    linarith
  · have hle : 2 * (y : ℚ) / h ≤ 2 := by
      rw [div_le_iff₀ hh]
      linarith
    linarith
  · have hnn : 0 ≤ 2 * (y : ℚ) / h := div_nonneg (by linarith) (le_of_lt hh)
    linarith
  · intro p hp
    simp [IgnRenderer.screenToScene, hp]
  · intro hp
    simp [IgnRenderer.screenToScene, hp]

/-- Witness for C8 at the image center of an 800 x 600 target with the
sample no-intersection ray query: the normalized coordinates are in range
and the result is origin plus 10 times direction. -/
theorem screenToScene_spec_witness :
    (-1 ≤ 2 * ((400 : Int) : ℚ) / 800 - 1 ∧
      2 * ((400 : Int) : ℚ) / 800 - 1 ≤ 1 ∧
      -1 ≤ 1 - 2 * ((300 : Int) : ℚ) / 600 ∧
      1 - 2 * ((300 : Int) : ℚ) / 600 ≤ 1) ∧
    (∀ p, (rayQuerySample (2 * ((400 : Int) : ℚ) / 800 - 1,
        1 - 2 * ((300 : Int) : ℚ) / 600)).hit = some p →
      IgnRenderer.screenToScene 800 600 rayQuerySample (400, 300) = p) ∧
    ((rayQuerySample (2 * ((400 : Int) : ℚ) / 800 - 1,
        1 - 2 * ((300 : Int) : ℚ) / 600)).hit = none →
      IgnRenderer.screenToScene 800 600 rayQuerySample (400, 300) =
        Vec3.add (rayQuerySample (2 * ((400 : Int) : ℚ) / 800 - 1,
          1 - 2 * ((300 : Int) : ℚ) / 600)).origin
          (Vec3.scale 10 (rayQuerySample (2 * ((400 : Int) : ℚ) / 800 - 1,
            1 - 2 * ((300 : Int) : ℚ) / 600)).direction)) :=
  screenToScene_spec 800 600 rayQuerySample 400 300 (by norm_num) (by norm_num)
    (by norm_num) (by norm_num) (by norm_num) (by norm_num)
